import Mathlib

/-!
Shallow embedding of the Voxcribe streaming transcription worker
(whisper worker source: the `GenerationTracker` class, the `transcribe`
orchestration function, the worker message handler, and the
`MyTranscriptionPipeline` singleton), together with theorems settling the
frozen claims about it.

Modelling conventions:
* JavaScript numbers used as timestamps are modelled as rationals `ℚ`;
  `Math.round` is modelled as `jsRound q = ⌊q + 1/2⌋` (round half up).
* A JavaScript value that may be `undefined` is modelled as an `Option`.
* The external tokenizer call `tokenizer._decode_asr` (from the
  @xenova/transformers library, an external collaborator in the spec) is
  abstracted as a function parameter `decode : List RawChunk → List RawChunk`
  taking the accumulated raw chunks to the merged chunk list; `specDecode`
  is the spec-modelled instance producing one merged chunk per raw chunk.
* Stateful methods of `GenerationTracker` become pure functions from the
  tracker state to a new state paired with the emitted worker message(s).
-/

/-- JavaScript `Math.round` on an exact rational: round half toward positive
infinity, `⌊q + 1/2⌋`. -/
def jsRound (q : ℚ) : ℤ := ⌊q + 1/2⌋

/-- An engine-finalized raw chunk `{text, timestamp: [start, end]}`; the raw
end timestamp may be absent (`undefined` in the source), modelled as `none`. -/
structure RawChunk where
  text : String
  start : ℚ
  endTime : Option ℚ
deriving DecidableEq, Repr

/-- A processed transcript segment as built by `GenerationTracker.processChunk`:
`{index, text: text.trim(), start: Math.round(start), end: Math.round(end) ||
Math.round(start + 0.9 * stride_length_s)}`. -/
structure ProcessedSegment where
  index : ℕ
  text : String
  start : ℤ
  endTime : ℤ
deriving DecidableEq, Repr

/-- The partial-result payload `{text, start, end: undefined}` posted by
`createPartialResultMessage`; `start` comes from `getLastChunkTimestamp()`
and may be `undefined`, hence `Option ℤ`. -/
structure PartialPayload where
  text : String
  start : Option ℤ
  endTime : Option ℤ
deriving DecidableEq, Repr

/-- Outbound worker messages, one constructor per `postMessage` shape found in
the worker source: LOADING, DOWNLOADING, RESULT, RESULT_PARTIAL and
INFERENCE_DONE. The worker has no error-carrying outbound message kind. -/
inductive WorkerMessage where
  | loading (status : String)
  | downloading (file : String) (progress : ℚ) (loaded : ℕ) (total : ℕ)
  | result (results : List ProcessedSegment) (isDone : Bool)
      (completedUntilTimestamp : Option ℤ)
  | partialResult (r : PartialPayload)
  | inferenceDone
deriving DecidableEq, Repr

/-- One beam hypothesis handed to the beam-update callback; only its
`output_token_ids` field is read by the source. -/
structure Beam where
  output_token_ids : List ℕ
deriving DecidableEq, Repr, Inhabited

/-- Mutable state of a `GenerationTracker` instance: the stride parameter, the
raw-chunk accumulation list `this.chunks`, the derived
`this.processed_chunks`, and `this.callbackFunctionCounter`. -/
structure GenerationTracker where
  stride_length_s : ℚ
  chunks : List RawChunk
  processed_chunks : List ProcessedSegment
  callbackFunctionCounter : ℕ
deriving DecidableEq, Repr

/-- A freshly constructed `GenerationTracker`: empty accumulation list, empty
processed list, counter zero. -/
def freshTracker (stride : ℚ) : GenerationTracker :=
  { stride_length_s := stride, chunks := [], processed_chunks := [],
    callbackFunctionCounter := 0 }

/-- `GenerationTracker.getLastChunkTimestamp`: the source only returns `0`
when `processed_chunks` is empty; for a non-empty list control falls off the
end of the method body and the call evaluates to `undefined` (`none`). -/
def getLastChunkTimestamp (processed_chunks : List ProcessedSegment) :
    Option ℤ :=
  if processed_chunks.length = 0 then some 0 else none

/-- `GenerationTracker.processChunk`: trims the text, rounds the start, and
computes the end as `Math.round(end) || Math.round(start + 0.9 *
stride_length_s)`. An absent end gives `Math.round(undefined) = NaN` and a
present end rounding to `0` gives `0`; both are falsy, so both select the
stride fallback. -/
def processChunk (stride_length_s : ℚ) (chunk : RawChunk) (index : ℕ) :
    ProcessedSegment :=
  { index := index
    text := chunk.text.trim
    start := jsRound chunk.start
    endTime :=
      match chunk.endTime with
      | none => jsRound (chunk.start + 9/10 * stride_length_s)
      | some e =>
          if jsRound e = 0 then jsRound (chunk.start + 9/10 * stride_length_s)
          else jsRound e }

/-- `GenerationTracker.callbackFunction`: increments the counter, returns
without emitting unless the counter is now divisible by 10, otherwise decodes
the best beam (`beams[0]`, via the tokenizer abstracted as `decodeTok`) and
posts a RESULT_PARTIAL message whose `start` is `getLastChunkTimestamp()` and
whose `end` is `undefined`. -/
def callbackFunction (decodeTok : List ℕ → String) (t : GenerationTracker)
    (beams : List Beam) : GenerationTracker × Option WorkerMessage :=
  let t1 := { t with callbackFunctionCounter := t.callbackFunctionCounter + 1 }
  if t1.callbackFunctionCounter % 10 ≠ 0 then
    (t1, none)
  else
    let text := decodeTok beams.headI.output_token_ids
    (t1, some (WorkerMessage.partialResult
      { text := text
        start := getLastChunkTimestamp t1.processed_chunks
        endTime := none }))

/-- `GenerationTracker.chunkCallback`: pushes the new raw chunk onto
`this.chunks`, re-runs the tokenizer merge (`decode`) over the FULL
accumulation list, rebuilds `this.processed_chunks` wholesale by mapping
`processChunk` with the positional index, and posts a RESULT message carrying
the full processed list, `isDone = false`, and `getLastChunkTimestamp()`. -/
def chunkCallback (decode : List RawChunk → List RawChunk)
    (t : GenerationTracker) (data : RawChunk) :
    GenerationTracker × WorkerMessage :=
  let chunks := t.chunks ++ [data]
  let merged := decode chunks
  let processed := merged.mapIdx fun i c => processChunk t.stride_length_s c i
  let t1 := { t with chunks := chunks, processed_chunks := processed }
  (t1, WorkerMessage.result processed false (getLastChunkTimestamp processed))

/-- Modelled from the spec: the engine tokenizer's streaming merge
`_decode_asr` (external library code, `decode_streaming` in the spec) is
modelled as producing exactly one merged chunk per accumulated raw chunk, in
order, as the spec's scenarios assume. -/
def specDecode : List RawChunk → List RawChunk := fun cs => cs

/-- Feed a sequence of finalized raw chunks through `chunkCallback` one at a
time, returning the final tracker state. -/
def feedChunks (decode : List RawChunk → List RawChunk)
    (t : GenerationTracker) : List RawChunk → GenerationTracker
  | [] => t
  | c :: cs => feedChunks decode (chunkCallback decode t c).1 cs

/-- Run a sequence of beam-update callbacks, collecting the per-update
emission flag (whether a RESULT_PARTIAL message was posted at that update). -/
def emissionFlags (decodeTok : List ℕ → String) (t : GenerationTracker) :
    List (List Beam) → List Bool
  | [] => []
  | b :: bs =>
      let step := callbackFunction decodeTok t b
      step.2.isSome :: emissionFlags decodeTok step.1 bs

/-- `sendFinalResult`: posts the payload-free INFERENCE_DONE message. -/
def sendFinalResult : WorkerMessage := WorkerMessage.inferenceDone

/-- Outcome of the `transcribe` async function: either it ran to completion,
or it threw an uncaught exception (its promise rejected). -/
inductive TranscribeOutcome where
  | completed
  | threw
deriving DecidableEq, Repr

/-- The `transcribe` orchestration function, with the engine abstracted:
`init` is the outcome of `MyTranscriptionPipeline.getInstance` (the
DOWNLOADING progress messages it posted, and whether it succeeded) and `run`
is the outcome of the chunked `pipeline(audio, ...)` call (the RESULT /
RESULT_PARTIAL messages posted by the tracker callbacks, and whether the run
returned normally).

Control flow taken from the source: it first posts LOADING "loading"; a
`getInstance` failure is caught and only logged, after which it still posts
LOADING "success" and then throws while building the `GenerationTracker`
(dereferencing the undefined pipeline), emitting nothing further. On a
successful init it posts LOADING "success", runs the pipeline, and posts
INFERENCE_DONE only when the run returns normally; a run failure propagates
uncaught. -/
def transcribe (init : List WorkerMessage × Bool)
    (run : List WorkerMessage × Bool) :
    List WorkerMessage × TranscribeOutcome :=
  let pre := WorkerMessage.loading "loading" :: init.1
  if init.2 then
    let msgs := pre ++ [WorkerMessage.loading "success"]
    if run.2 then (msgs ++ run.1 ++ [sendFinalResult], .completed)
    else (msgs ++ run.1, .threw)
  else
    (pre ++ [WorkerMessage.loading "success"], .threw)

/-- The inbound message type tag checked by the worker's message handler
(`MessageTypes.INFERENCE_REQUEST`). -/
def INFERENCE_REQUEST : String := "INFERENCE_REQUEST"

/-- An inbound host message as posted by `handleFormSubmission`:
`{type, audio, model_name}`. -/
structure InboundMessage where
  type : String
  audio : List ℚ
  model_name : String
deriving DecidableEq, Repr

/-- The worker's `self` message handler: destructures only `type` and `audio`
from the event data and calls `transcribe(audio)` when the type is
INFERENCE_REQUEST, doing nothing otherwise. The engine behaviour is
abstracted as the init outcome and a run outcome depending on the audio. -/
def handleMessage (init : List WorkerMessage × Bool)
    (run : List ℚ → List WorkerMessage × Bool) (msg : InboundMessage) :
    Option (List WorkerMessage × TranscribeOutcome) :=
  if msg.type = INFERENCE_REQUEST then some (transcribe init (run msg.audio))
  else none

/-- The positional arguments `MyTranscriptionPipeline.getInstance` passes to
the library `pipeline(...)` factory: the task string and the model
identifier. -/
structure PipelineCtorArgs where
  task : String
  model : Option String
deriving DecidableEq, Repr

/-- The static `model` field of `MyTranscriptionPipeline`. -/
def MyTranscriptionPipeline_model : String := "openai/whisper-tiny.en"

/-- The arguments actually used at the `pipeline(this.task, null,
{ progress_callback })` call inside `getInstance`: the model argument is the
literal `null`, not the static `model` field. -/
def getInstanceCtorArgs : PipelineCtorArgs :=
  { task := "automatic-speech-recognition", model := none }

/-! ### Helper lemmas -/

/-- Rounding is monotone: `jsRound` of a smaller rational is at most `jsRound`
of a larger one. -/
lemma jsRound_le_jsRound {a b : ℚ} (h : a ≤ b) : jsRound a ≤ jsRound b :=
  Int.floor_le_floor (by linarith)

/-- Mapping the `index` field over the segments built by `mapIdx` with
`processChunk` yields exactly the positional indices `0..len-1`. -/
lemma map_index_mapIdx (s : ℚ) (l : List RawChunk) :
    ((l.mapIdx fun i c => processChunk s c i).map ProcessedSegment.index)
      = List.range l.length := by
  induction l using List.list_reverse_induction with
  | base => rfl
  | ind l e ih =>
      rw [List.mapIdx_append_one, List.map_append, ih]
      simp [List.range_succ, processChunk]

/-- Feeding a non-empty chunk sequence leaves the tracker with a processed
list re-derived from the full accumulated chunk list. -/
lemma feedChunks_cons_processed (d : List RawChunk → List RawChunk) :
    ∀ (cs : List RawChunk) (t : GenerationTracker) (c : RawChunk),
      (feedChunks d t (c :: cs)).processed_chunks
        = (d (t.chunks ++ (c :: cs))).mapIdx
            fun i ch => processChunk t.stride_length_s ch i := by
  intro cs
  induction cs with
  | nil => intro t c; rfl
  | cons c2 cs ih =>
      intro t c
      show (feedChunks d (chunkCallback d t c).1 (c2 :: cs)).processed_chunks = _
      rw [ih (chunkCallback d t c).1 c2]
      simp [chunkCallback]

/-! ### Claim theorems -/

/-- C1: evaluation of the code at the failing input. The claim states that
the `start` emitted with a PartialResult, and the `completedUntilTimestamp`
emitted with a Result, equal the start of the most recently finalized
ProcessedSegment when the processed list is non-empty. The code's
`getLastChunkTimestamp` instead falls off the end of the method and yields
`undefined` (`none`) for every non-empty list: after finalizing the chunk
`{"hello world", (0, 2)}` (whose segment has start `0`), the Result message
carries `completedUntilTimestamp = none` and the next tenth beam update
emits a PartialResult with `start = none`, not `0`. -/
theorem voxcribe_C1_eval :
    getLastChunkTimestamp [processChunk 5 ⟨"hello world", 0, some 2⟩ 0]
        = none ∧
    (chunkCallback specDecode (freshTracker 5) ⟨"hello world", 0, some 2⟩).2
      = WorkerMessage.result [processChunk 5 ⟨"hello world", 0, some 2⟩ 0]
          false none ∧
    (processChunk 5 ⟨"hello world", 0, some 2⟩ 0).start = 0 ∧
    (callbackFunction (fun _ => "")
        { (chunkCallback specDecode (freshTracker 5)
            ⟨"hello world", 0, some 2⟩).1 with callbackFunctionCounter := 9 }
        [⟨[]⟩]).2
      = some (WorkerMessage.partialResult ⟨"", none, none⟩) :=
  ⟨rfl, rfl, by norm_num [processChunk, jsRound], rfl⟩

/-- C2 counterexample: no malformed-chunk detection exists. Feeding the
temporally inconsistent chunk `{"bad", (5, 2)}` (raw end present and less
than start) does not abort the request: a subsequent chunk is still
accumulated and processed (two chunks, two segments), and the inconsistent
chunk becomes an ordinary ProcessedSegment whose end `2` is below its start
`5`, refuting the claimed MalformedChunkError report and the claimed stop of
accumulation. -/
theorem voxcribe_C2_counterexample :
    (chunkCallback specDecode
        (chunkCallback specDecode (freshTracker 5) ⟨"bad", 5, some 2⟩).1
        ⟨"ok", 6, some 7⟩).1.chunks
      = [⟨"bad", 5, some 2⟩, ⟨"ok", 6, some 7⟩] ∧
    (chunkCallback specDecode
        (chunkCallback specDecode (freshTracker 5) ⟨"bad", 5, some 2⟩).1
        ⟨"ok", 6, some 7⟩).1.processed_chunks.length = 2 ∧
    (processChunk 5 ⟨"bad", 5, some 2⟩ 0).endTime
      < (processChunk 5 ⟨"bad", 5, some 2⟩ 0).start := by
  refine ⟨rfl, rfl, ?_⟩
  have h2 : jsRound 2 = 2 := by norm_num [jsRound]
  have h5 : jsRound 5 = 5 := by norm_num [jsRound]
  simp [processChunk, h2, h5]

/-- C2 amended: a finalized chunk whose raw end is present but less than its
start is not detected as a protocol violation. The Generation Tracker always
appends the chunk to its accumulation list and keeps processing (no abort,
no MalformedChunkError — no such error exists in the worker), and whenever
the raw end rounds to a nonzero value below the rounded start, the resulting
ProcessedSegment simply has `end < start`. -/
theorem voxcribe_C2_amended :
    (∀ (d : List RawChunk → List RawChunk) (t : GenerationTracker)
        (c : RawChunk), (chunkCallback d t c).1.chunks = t.chunks ++ [c]) ∧
    (∀ (s : ℚ) (c : RawChunk) (i : ℕ) (e : ℚ), c.endTime = some e →
        jsRound e ≠ 0 → jsRound e < jsRound c.start →
        (processChunk s c i).endTime < (processChunk s c i).start) := by
  constructor
  · intro d t c; rfl
  · intro s c i e he h0 hlt
    simp [processChunk, he, h0]
    exact hlt

/-- C2 amended, witness: the malformed chunk `{"bad", (5, 2)}` is appended
like any other and yields a segment with end `2` below start `5`. -/
theorem voxcribe_C2_amended_witness :
    (chunkCallback specDecode (freshTracker 5) ⟨"bad", 5, some 2⟩).1.chunks
      = [⟨"bad", 5, some 2⟩] ∧
    (processChunk 5 ⟨"bad", 5, some 2⟩ 0).endTime
      < (processChunk 5 ⟨"bad", 5, some 2⟩ 0).start :=
  ⟨voxcribe_C2_amended.1 specDecode (freshTracker 5) ⟨"bad", 5, some 2⟩,
    voxcribe_C2_amended.2 5 ⟨"bad", 5, some 2⟩ 0 2 rfl
      (by norm_num [jsRound]) (by norm_num [jsRound])⟩

/-- C3 counterexample: with a failing engine construction, `transcribe`
emits exactly the two Loading messages ("loading", then — despite the
failure — "success") and throws; no Error event is posted (the worker's
outbound vocabulary has no error kind) and no Done (INFERENCE_DONE) message
is posted, refuting the claim that exactly one Error event is emitted and
that the request state is reset. -/
theorem voxcribe_C3_counterexample :
    transcribe ([], false) ([], true)
      = ([WorkerMessage.loading "loading", WorkerMessage.loading "success"],
          TranscribeOutcome.threw) ∧
    sendFinalResult ∉ (transcribe ([], false) ([], true)).1 := by
  refine ⟨rfl, ?_⟩
  decide

/-- C3 amended: an error from engine construction is caught and only logged;
`transcribe` still posts the "success" Loading message and then throws while
building the tracker on the undefined pipeline, emitting nothing further —
in particular no Done and no error event (no error message kind exists). An
error from the chunked run propagates uncaught after whatever callback
events were already posted, again with no Done and no error event. Only a
normally returning run produces the terminal INFERENCE_DONE. Nothing is
retried, and no request-state machine exists to reset. -/
theorem voxcribe_C3_amended :
    (∀ (initEvs : List WorkerMessage) (run : List WorkerMessage × Bool),
        transcribe (initEvs, false) run
          = (WorkerMessage.loading "loading" :: initEvs
              ++ [WorkerMessage.loading "success"], TranscribeOutcome.threw)) ∧
    (∀ (initEvs runEvs : List WorkerMessage),
        transcribe (initEvs, true) (runEvs, false)
          = ((WorkerMessage.loading "loading" :: initEvs
              ++ [WorkerMessage.loading "success"]) ++ runEvs,
              TranscribeOutcome.threw)) ∧
    (∀ (initEvs runEvs : List WorkerMessage),
        transcribe (initEvs, true) (runEvs, true)
          = ((WorkerMessage.loading "loading" :: initEvs
              ++ [WorkerMessage.loading "success"]) ++ runEvs
              ++ [sendFinalResult], TranscribeOutcome.completed)) :=
  ⟨fun _ _ => rfl, fun _ _ => rfl, fun _ _ => rfl⟩

/-- C4: for every raw chunk whose end timestamp is absent, the processed
segment's end is `jsRound (start + 0.9 * stride_length_s)`. -/
theorem voxcribe_C4 (s : ℚ) (c : RawChunk) (i : ℕ) (h : c.endTime = none) :
    (processChunk s c i).endTime = jsRound (c.start + 9/10 * s) := by
  simp [processChunk, h]

/-- C4 witness: the chunk `{"partial", (1, absent)}` with stride 5 gets end
`jsRound (1 + 4.5) = 6`. -/
theorem voxcribe_C4_witness :
    (⟨"partial", 1, none⟩ : RawChunk).endTime = none ∧
    (processChunk 5 ⟨"partial", 1, none⟩ 0).endTime = 6 :=
  ⟨rfl, by rw [voxcribe_C4 5 ⟨"partial", 1, none⟩ 0 rfl]; norm_num [jsRound]⟩

/-- C5 counterexample: the segment produced from the chunk `{"x", (5, 2)}`
has end `2` strictly below start `5`, refuting `end ≥ start` for segments
produced from arbitrary raw chunks. -/
theorem voxcribe_C5_counterexample :
    ¬ ((processChunk 5 ⟨"x", 5, some 2⟩ 0).start
        ≤ (processChunk 5 ⟨"x", 5, some 2⟩ 0).endTime) := by
  have h2 : jsRound 2 = 2 := by norm_num [jsRound]
  have h5 : jsRound 5 = 5 := by norm_num [jsRound]
  simp [processChunk, h2, h5]

/-- C5 amended: `end ≥ start` holds for every ProcessedSegment produced from
a raw chunk whose end is absent or rounds to zero (the fallback cases), for
any nonnegative stride; a present raw end rounding to a nonzero value is
used as-is and can violate the bound. -/
theorem voxcribe_C5_amended (s : ℚ) (c : RawChunk) (i : ℕ) (hs : 0 ≤ s)
    (h : c.endTime = none ∨ ∃ e, c.endTime = some e ∧ jsRound e = 0) :
    (processChunk s c i).start ≤ (processChunk s c i).endTime := by
  have hmono : jsRound c.start ≤ jsRound (c.start + 9/10 * s) :=
    jsRound_le_jsRound (by linarith)
  rcases h with h | ⟨e, he, h0⟩
  · simpa [processChunk, h] using hmono
  · simpa [processChunk, he, h0] using hmono

/-- C5 amended, witness: stride 5 is nonnegative and the absent-end chunk
`{"partial", (1, absent)}` yields start `1 ≤ end 6`. -/
theorem voxcribe_C5_amended_witness :
    (0 : ℚ) ≤ 5 ∧
    (processChunk 5 ⟨"partial", 1, none⟩ 0).start
      ≤ (processChunk 5 ⟨"partial", 1, none⟩ 0).endTime :=
  ⟨by norm_num,
    voxcribe_C5_amended 5 ⟨"partial", 1, none⟩ 0 (by norm_num) (Or.inl rfl)⟩

/-- C6: for any sequence of N finalized raw chunks fed to a fresh Generation
Tracker (with the tokenizer merge modelled per the spec as one merged chunk
per raw chunk), the index fields of the resulting ProcessedSegment sequence
are exactly `0, 1, ..., N-1` in order — dense, no gaps, no reordering — for
all N ≥ 0. -/
theorem voxcribe_C6 (s : ℚ) (cs : List RawChunk) :
    ((feedChunks specDecode (freshTracker s) cs).processed_chunks.map
        ProcessedSegment.index)
      = List.range cs.length := by
  cases cs with
  | nil => rfl
  | cons c cs =>
      rw [feedChunks_cons_processed]
      simpa [specDecode, freshTracker] using map_index_mapIdx s (c :: cs)

/-- C7: a PartialResult is emitted by the beam-update callback exactly when
the incremented counter is a positive multiple of the partial-update period
10 — hence at most once per 10 updates — and a run of 25 beam updates on a
fresh tracker emits exactly 2 PartialResults, at updates 10 and 20. -/
theorem voxcribe_C7 :
    (∀ (dk : List ℕ → String) (t : GenerationTracker) (bs : List Beam),
        ((callbackFunction dk t bs).2.isSome
          ↔ ∃ m : ℕ, 0 < m ∧ t.callbackFunctionCounter + 1 = 10 * m)) ∧
    emissionFlags (fun _ => "") (freshTracker 5) (List.replicate 25 [])
      = [false, false, false, false, false, false, false, false, false, true,
         false, false, false, false, false, false, false, false, false, true,
         false, false, false, false, false] := by
  constructor
  · intro dk t bs
    by_cases h : (t.callbackFunctionCounter + 1) % 10 = 0
    · simp only [callbackFunction]
      rw [if_neg (not_not_intro h)]
      simp only [Option.isSome_some, true_iff]
      have hdvd : 10 ∣ t.callbackFunctionCounter + 1 :=
        Nat.dvd_of_mod_eq_zero h
      refine ⟨(t.callbackFunctionCounter + 1) / 10, ?_, ?_⟩
      · exact Nat.div_pos (Nat.le_of_dvd (Nat.succ_pos _) hdvd) (by norm_num)
      · exact (Nat.mul_div_cancel' hdvd).symm
    · simp only [callbackFunction]
      rw [if_pos h]
      simp only [Option.isSome_none, Bool.false_eq_true, false_iff]
      rintro ⟨m, hm, he⟩
      exact h (he ▸ Nat.mul_mod_right 10 m)
  · rfl

/-- C8: on every finalized chunk, `chunkCallback` appends the chunk to the
accumulation list, rebuilds the whole ProcessedSegment list from the full
accumulated list (the result depends only on the accumulated chunks and the
stride, not on the prior processed list — a wholesale replacement), and
emits a Result message carrying that full sequence with `isDone = false`. -/
theorem voxcribe_C8 (d : List RawChunk → List RawChunk)
    (t : GenerationTracker) (c : RawChunk) :
    (chunkCallback d t c).1.chunks = t.chunks ++ [c] ∧
    (chunkCallback d t c).1.processed_chunks
      = (d (t.chunks ++ [c])).mapIdx
          (fun i ch => processChunk t.stride_length_s ch i) ∧
    (chunkCallback d t c).2
      = WorkerMessage.result (chunkCallback d t c).1.processed_chunks false
          (getLastChunkTimestamp (chunkCallback d t c).1.processed_chunks) :=
  ⟨rfl, rfl, rfl⟩

/-- C9: for every raw chunk whose end timestamp is present but rounds to
zero, `processChunk` applies the stride fallback anyway — the fallback is
triggered by the rounded end being falsy, not by the end being absent. -/
theorem voxcribe_C9 (s : ℚ) (c : RawChunk) (i : ℕ) (e : ℚ)
    (he : c.endTime = some e) (h0 : jsRound e = 0) :
    (processChunk s c i).endTime = jsRound (c.start + 9/10 * s) := by
  simp [processChunk, he, h0]

/-- C9 witness: end `0.4` rounds to `0`, so the chunk `{"x", (1, 0.4)}` with
stride 5 gets the fallback end `jsRound (1 + 4.5)`. -/
theorem voxcribe_C9_witness :
    jsRound (2/5) = 0 ∧
    (processChunk 5 ⟨"x", 1, some (2/5)⟩ 0).endTime
      = jsRound ((1 : ℚ) + 9/10 * 5) :=
  ⟨by norm_num [jsRound],
    voxcribe_C9 5 ⟨"x", 1, some (2/5)⟩ 0 (2/5) rfl (by norm_num [jsRound])⟩

/-- C10: the worker's observable behaviour does not depend on the
`model_name` field of an inbound message — the handler reads only `type` and
`audio`, so two requests agreeing on those produce identical outcomes — and
`getInstance` constructs the pipeline with a `null` model identifier. -/
theorem voxcribe_C10 :
    (∀ (init : List WorkerMessage × Bool)
        (run : List ℚ → List WorkerMessage × Bool) (m1 m2 : InboundMessage),
        m1.type = m2.type → m1.audio = m2.audio →
        handleMessage init run m1 = handleMessage init run m2) ∧
    getInstanceCtorArgs.model = none := by
  constructor
  · intro init run m1 m2 htype haudio
    unfold handleMessage
    rw [htype, haudio]
  · rfl

/-- C10 witness: two concrete inference requests identical except for
`model_name` are handled identically. -/
theorem voxcribe_C10_witness :
    handleMessage ([], true) (fun _ => ([], true))
        ⟨INFERENCE_REQUEST, [1], "openai/whisper-tiny.en"⟩
      = handleMessage ([], true) (fun _ => ([], true))
        ⟨INFERENCE_REQUEST, [1], "some-other-model"⟩ :=
  voxcribe_C10.1 ([], true) (fun _ => ([], true))
    ⟨INFERENCE_REQUEST, [1], "openai/whisper-tiny.en"⟩
    ⟨INFERENCE_REQUEST, [1], "some-other-model"⟩ rfl rfl
